import Mathlib

/-!
# LMS Invoice / LMS Payment form controllers

A shallow embedding of the two client scripts
`lms/lms/doctype/lms_invoice/lms_invoice.js` and
`lms/lms/doctype/lms_payment/lms_payment.js`.

* A document (`frm.doc`, a fetched payment, the message of a lookup) is a
  string-keyed object of primitive JavaScript values.
* A handler is a function from the form (and from the replies of the remote
  calls it makes) to the form after the handler and its callbacks have run,
  or to the list of user-interface effects it produces.
* Functions of the host (`flt`, the conversion of a number to text) are not
  part of the scripts and are taken as parameters in `Host`.
* JavaScript numbers are IEEE-754 binary64 values, given by their sign,
  exponent field and fraction field; `+` rounds to nearest, ties to even.
-/

set_option autoImplicit false

/-! ## JavaScript values -/

/-- A JavaScript number, an IEEE-754 binary64 value: `NaN`, an infinity, or
a finite value with its sign, its biased exponent field (0 for the zeros and
the subnormal values, at most 2046) and its 52-bit fraction field. -/
inductive JSNum where
  | nan
  | inf (negative : Bool)
  | fin (negative : Bool) (exponent : Fin 2047) (fraction : Fin 4503599627370496)
  deriving DecidableEq

namespace JSNum

/-- The literal `0`, the positive zero. -/
def zero : JSNum := fin false 0 0

/-- The magnitude of a finite value as a whole number of quanta of
`2 ^ (-1074)`, the smallest positive value: the fraction for a zero or a
subnormal value, and `(2 ^ 52 + fraction) * 2 ^ (exponent - 1)` otherwise. -/
def quanta (exponent : Fin 2047) (fraction : Fin 4503599627370496) : Nat :=
  if exponent.val = 0 then fraction.val
  else (4503599627370496 + fraction.val) <<< (exponent.val - 1)

/-- The number of binary digits of `n`, for `n` below `2 ^ 4096`; the sum of
two finite values is below `2 ^ 2100` quanta. -/
def bit_length (n : Nat) : Nat :=
  let step := fun (acc : Nat × Nat) (k : Nat) =>
    if acc.1 >>> k = 0 then acc else (acc.1 >>> k, acc.2 + k)
  let r := [2048, 1024, 512, 256, 128, 64, 32, 16, 8, 4, 2, 1].foldl step (n, 0)
  if r.1 = 0 then r.2 else r.2 + 1

/-- The value with the given sign nearest to `n` quanta, a tie going to the
even significand, and the infinity when the rounded value is out of range. -/
def of_quanta (negative : Bool) (n : Nat) : JSNum :=
  if bit_length n ≤ 52 then
    fin negative 0 ⟨n % 4503599627370496, Nat.mod_lt _ (by decide)⟩
  else
    let shift := bit_length n - 53
    let kept := n >>> shift
    let rest := n - (kept <<< shift)
    let half := 1 <<< shift
    let up := decide (half < 2 * rest) || (decide (2 * rest = half) && decide (kept % 2 = 1))
    let rounded := if up then kept + 1 else kept
    let shift := if rounded = 9007199254740992 then shift + 1 else shift
    if 2046 ≤ shift then inf negative
    else
      fin negative ⟨(shift + 1) % 2047, Nat.mod_lt _ (by decide)⟩
        ⟨rounded % 4503599627370496, Nat.mod_lt _ (by decide)⟩

/-- A magnitude in quanta with its sign, as an integer. -/
def signed (negative : Bool) (n : Nat) : Int :=
  if negative then -(n : Int) else (n : Int)

/-- The JavaScript `+` on two numbers: the exact sum rounded to the nearest
value. A sum that is exactly zero is the negative zero only when both
operands are negative. -/
def add : JSNum → JSNum → JSNum
  | nan, _ => nan
  | _, nan => nan
  | inf a, inf b => if a = b then inf a else nan
  | inf a, fin _ _ _ => inf a
  | fin _ _ _, inf b => inf b
  | fin s1 e1 f1, fin s2 e2 f2 =>
    let sum := signed s1 (quanta e1 f1) + signed s2 (quanta e2 f2)
    if sum = 0 then fin (s1 && s2) 0 0
    else of_quanta (decide (sum < 0)) sum.natAbs

/-- A number is truthy unless it is `NaN` or a zero. -/
def truthy : JSNum → Bool
  | nan => false
  | inf _ => true
  | fin _ exponent fraction => !(decide (exponent.val = 0) && decide (fraction.val = 0))

/-- The expression `x || 0` on a number `x`. -/
def orZero (x : JSNum) : JSNum :=
  if x.truthy then x else zero

end JSNum

/-- A primitive JavaScript value. -/
inductive JSVal where
  | undefined
  | null
  | bool (b : Bool)
  | num (n : JSNum)
  | str (s : String)
  deriving DecidableEq

namespace JSVal

/-- JavaScript truthiness (`if (v)`, `!v`, `v && ...`). -/
def truthy : JSVal → Bool
  | undefined => false
  | null => false
  | bool b => b
  | num n => n.truthy
  | str s => decide (s ≠ "")

/-- The expression `a || b`. -/
def or (a b : JSVal) : JSVal :=
  if a.truthy then a else b

end JSVal

/-- A JavaScript object with primitive properties; an absent property reads
as `undefined`. -/
abbrev Obj := String → JSVal

/-- The object without any property. -/
def Obj.empty : Obj := fun _ => JSVal.undefined

/-- The assignment `o[key] = v`. -/
def Obj.set (o : Obj) (key : String) (v : JSVal) : Obj :=
  fun k => if k = key then v else o k

/-- The functions of the host the scripts call and do not define. -/
structure Host where
  /-- The helper `flt(v)` of the framework. -/
  flt : JSVal → JSNum
  /-- The text of a number inside a template literal. -/
  num_to_string : JSNum → String

/-- The text of a value inside a template literal (`${v}`). -/
def Host.toStr (host : Host) : JSVal → String
  | JSVal.undefined => "undefined"
  | JSVal.null => "null"
  | JSVal.bool true => "true"
  | JSVal.bool false => "false"
  | JSVal.num n => host.num_to_string n
  | JSVal.str s => s

/-- The form object `frm` handed to every handler. -/
structure Form where
  /-- The document being edited, `frm.doc`. -/
  doc : Obj
  /-- The answer of `frm.is_new()`. -/
  is_new : Bool
  /-- The property `frm.is_list`. -/
  is_list : JSVal

/-- The call `frm.set_value(field, value)`: the write to `frm.doc`. The change
event the framework raises for the field after the write is not part of the
call. -/
def Form.set_value (frm : Form) (field : String) (value : JSVal) : Form :=
  { frm with doc := frm.doc.set field value }

/-- A translatable message `__(text, args)`. -/
structure Translated where
  text : String
  args : List JSVal
  deriving DecidableEq

/-- The call `__(text)`. -/
def gettext (text : String) : Translated := ⟨text, []⟩

/-! ## User-interface effects -/

/-- What a button or a menu entry does when it is used. -/
inductive UIAction where
  | trigger (handler : String)
  | set_route (route : List JSVal)
  | call (method : String)

/-- One entry of the `attachments` argument of the email request. -/
structure Attachment where
  print_format_attachment : Nat
  doctype : JSVal
  name : JSVal
  print_format : String

/-- The `args` of the request made by `send_invoice_email`. -/
structure EmailArgs where
  recipients : JSVal
  subject : String
  content : String
  doctype : JSVal
  name : JSVal
  send_email : Nat
  print_format : String
  attachments : List Attachment

/-- The `args` of a `frappe.call`. -/
inductive CallArgs where
  | email (args : EmailArgs)
  | payment_name (name : JSVal)

/-- An effect of a handler on the user interface or on the server. -/
inductive Effect where
  /-- The call `frappe.msgprint(message)`. -/
  | msgprint (message : Translated)
  /-- The call `frappe.msgprint({title, indicator, message})`. -/
  | msgprint_box (title : Translated) (indicator : String) (message : Translated)
  /-- The call `frappe.call({method, args})`. -/
  | call (method : String) (args : CallArgs)
  /-- The call `frm.add_custom_button(label, action)`. -/
  | add_custom_button (label : Translated) (action : UIAction)
  /-- The call `frm.page.add_menu_item(label, action)`. -/
  | add_menu_item (label : Translated) (action : UIAction)
  /-- The request `frappe.db.get_value(doctype, filters, fieldname)`. -/
  | get_value (doctype : String) (filters : List (String × JSVal)) (fieldname : String)

/-- An effect that adds the custom button with the given label text. -/
def Effect.isButton (text : String) : Effect → Bool
  | Effect.add_custom_button label _ => decide (label.text = text)
  | _ => false

namespace LMSInvoice

/-- The handler `calculate_total`. -/
def calculate_total (host : Host) (frm : Form) : Form :=
  let amount := (host.flt (frm.doc "amount")).orZero
  let tax := (host.flt (frm.doc "tax_amount")).orZero
  frm.set_value "total_amount" (JSVal.num (amount.add tax))

/-- The call `frm.trigger(name)` for the handlers that are triggered by name
in the invoice controller. -/
def trigger (host : Host) (frm : Form) (name : String) : Form :=
  if name = "calculate_total" then calculate_total host frm else frm

/-- The handler `amount`, run on a change of the field `amount`. -/
def amount (host : Host) (frm : Form) : Form :=
  trigger host frm "calculate_total"

/-- The handler `tax_amount`, run on a change of the field `tax_amount`. -/
def tax_amount (host : Host) (frm : Form) : Form :=
  trigger host frm "calculate_total"

/-- The object literal `field_map`: its (payment field, invoice field) pairs
in the order of `Object.keys`. -/
def field_map : List (String × String) :=
  [("member", "customer"),
   ("order_id", "order_id"),
   ("payment_id", "payment_id"),
   ("currency", "currency"),
   ("amount", "amount"),
   ("billing_name", "billing_name"),
   ("address", "address"),
   ("gstin", "gstn"),
   ("pan", "pan")]

/-- The body of the `forEach` over the keys of `field_map`. -/
def copy_field (payment : Obj) (frm : Form) (entry : String × String) : Form :=
  let payment_field := entry.1
  let invoice_field := entry.2
  if (payment payment_field).truthy && !(frm.doc invoice_field).truthy then
    frm.set_value invoice_field (payment payment_field)
  else
    frm

/-- The callback given to `.then` after the title lookup; `label` is the text
in front of the title in the template literal. -/
def title_then (host : Host) (label : String) (frm : Form) (r_message : Obj) : Form :=
  if (r_message "title").truthy then
    frm.set_value "payment_for" (JSVal.str (label ++ host.toStr (r_message "title")))
  else
    frm

/-- The synchronous part of the callback of the payment fetch, for a fetched
`payment`: the form it leaves and, when a title lookup was started, the label
of the pending `.then` callback. -/
def payment_reference_sync (frm : Form) (payment : Obj) : Form × Option String :=
  let frm := field_map.foldl (copy_field payment) frm
  let target : Form × Option String :=
    if (payment "payment_for_document_type").truthy
        && (payment "payment_for_document").truthy then
      if payment "payment_for_document_type" = JSVal.str "LMS Course" then
        (frm.set_value "course" (payment "payment_for_document"), some "Course: ")
      else if payment "payment_for_document_type" = JSVal.str "LMS Batch" then
        (frm, some "Batch: ")
      else
        (frm, none)
    else
      (frm, none)
  let frm := target.1
  let frm :=
    if (payment "payment_received").truthy && frm.doc "status" = JSVal.str "Draft" then
      frm.set_value "status" (JSVal.str "Paid")
    else
      frm
  (frm, target.2)

/-- The callback of the payment fetch, followed by the `.then` callback of the
title lookup it may start. `r_message` is the fetched payment (`none` when the
reply carries no message), `title_message` the message of the title lookup. -/
def payment_reference_callback (host : Host) (frm : Form) (r_message : Option Obj)
    (title_message : Obj) : Form :=
  match r_message with
  | some payment =>
    let synced := payment_reference_sync frm payment
    match synced.2 with
    | some label => title_then host label synced.1 title_message
    | none => synced.1
  | none => frm

/-- The fields the handler clears when the payment reference is removed. -/
def cleared_fields : List String :=
  ["order_id", "payment_id", "billing_name", "address", "gstn", "pan"]

/-- The handler `payment_reference`, with the replies of the requests it
makes. -/
def payment_reference (host : Host) (frm : Form) (r_message : Option Obj)
    (title_message : Obj) : Form :=
  if (frm.doc "payment_reference").truthy then
    payment_reference_callback host frm r_message title_message
  else
    cleared_fields.foldl (fun frm field => frm.set_value field JSVal.null) frm

/-- The operand of the `not in` filter of a query. -/
inductive FilterOperand where
  /-- An array of values. -/
  | values (xs : List JSVal)
  /-- A promise, with the array it resolves to later. -/
  | promise (resolves_to : List JSVal)

/-- The object returned by a `get_query` function: its `filters`, one
(field, operator, operand) entry for each key. -/
structure Query where
  filters : List (String × String × FilterOperand)

/-- The function `get_query` of the `payment` input of the dialog opened by
`create_from_payment`; `rows` is what the list request for the invoices with
a payment reference resolves to. -/
def create_from_payment_get_query (rows : List Obj) : Query :=
  { filters :=
      [("name", "not in",
        FilterOperand.promise (rows.map (fun d => d "payment_reference")))] }

/-- The text of the email built by `send_invoice_email`. -/
def email_content (host : Host) (doc : Obj) : String :=
  "Dear " ++ host.toStr ((doc "billing_name").or (JSVal.str "Valued Customer")) ++ ",<br><br>\n"
  ++ "Please find your invoice attached for your reference.<br><br>\n"
  ++ "<strong>Invoice Details:</strong><br>\n"
  ++ "• Invoice Number: " ++ host.toStr (doc "invoice_number") ++ "<br>\n"
  ++ "• Invoice Date: " ++ host.toStr (doc "invoice_date") ++ "<br>\n"
  ++ "• Due Date: " ++ host.toStr ((doc "due_date").or (JSVal.str "N/A")) ++ "<br>\n"
  ++ "• Amount: " ++ host.toStr (doc "currency") ++ " " ++ host.toStr (doc "total_amount")
  ++ "<br>\n"
  ++ "• Payment For: " ++ host.toStr (doc "payment_for") ++ "<br>\n"
  ++ "• Status: " ++ host.toStr (doc "status") ++ "<br><br>\n"
  ++ "Thank you for your business!"

/-- The handler `send_invoice_email`; `r_message` is the message of the reply
to the email request. -/
def send_invoice_email (host : Host) (frm : Form) (r_message : JSVal) : List Effect :=
  if !(frm.doc "customer").truthy then
    [Effect.msgprint (gettext "Please select a customer first")]
  else
    [Effect.call "frappe.core.doctype.communication.email.make"
      (CallArgs.email
        { recipients := frm.doc "customer"
          subject := "Invoice " ++ host.toStr (frm.doc "invoice_number") ++ " - "
            ++ host.toStr (frm.doc "payment_for")
          content := email_content host frm.doc
          doctype := frm.doc "doctype"
          name := frm.doc "name"
          send_email := 1
          print_format := "Standard"
          attachments :=
            [{ print_format_attachment := 1
               doctype := frm.doc "doctype"
               name := frm.doc "name"
               print_format := "Standard" }] })]
    ++ (if r_message.truthy then
          [Effect.msgprint_box (gettext "Success") "green"
            ⟨"Invoice email sent successfully to \x7b0\x7d", [frm.doc "customer"]⟩]
        else [])

end LMSInvoice

namespace LMSPayment

/-- How the lookup made by `refresh` ends: the request fails and its promise
is rejected, or it is answered and the promise resolves with `r`, whose
`r.message` is an object or is missing. -/
inductive LookupReply where
  | rejected
  | resolved (message : Option Obj)

/-- The handler `refresh` of the payment form; `reply` is the end of the
lookup of an invoice whose `payment_reference` is this payment. The request
is made first, the menu entry is added before the lookup is answered, and
the `.then` callback runs only when the promise resolves; reading `name` of
a missing message throws before a button is added. -/
def refresh (frm : Form) (reply : LookupReply) : List Effect :=
  (if (frm.doc "payment_received").truthy && !frm.is_new then
      [Effect.get_value "LMS Invoice" [("payment_reference", frm.doc "name")] "name"]
    else [])
  ++ (if frm.is_list.truthy then
      [Effect.add_menu_item (gettext "Create Invoices for Completed Payments")
        (UIAction.call
          "lms.lms.doctype.lms_invoice.lms_invoice.auto_create_invoices_for_completed_payments")]
    else [])
  ++ (if (frm.doc "payment_received").truthy && !frm.is_new then
        match reply with
        | LookupReply.resolved (some r_message) =>
          if !(r_message "name").truthy then
            [Effect.add_custom_button (gettext "Create Invoice")
              (UIAction.trigger "create_invoice")]
          else
            [Effect.add_custom_button (gettext "View Invoice")
              (UIAction.set_route
                [JSVal.str "Form", JSVal.str "LMS Invoice", r_message "name"])]
        | LookupReply.resolved none => []
        | LookupReply.rejected => []
      else [])

end LMSPayment

/-! ## Notions used to state the properties -/

/-- The number a field value counts as in the total: 0 for a missing value
(`undefined`, `null`) and for the numbers `NaN` and zero, the number itself
for any other number, and for a text or a boolean the number `flt` reads
from it, 0 when it reads none. -/
def counts_as (host : Host) (v : JSVal) : JSNum :=
  match v with
  | JSVal.undefined => JSNum.zero
  | JSVal.null => JSNum.zero
  | JSVal.num n => if n.truthy then n else JSNum.zero
  | JSVal.bool b => (host.flt (JSVal.bool b)).orZero
  | JSVal.str t => (host.flt (JSVal.str t)).orZero

/-- Modelled from the spec: what the total relies on from the helper `flt` of
the framework, which is not part of the repository, at the value `v`: a
missing value is read as zero or as no number, a number other than `NaN` and
zero is read as itself, `NaN` and zero are read as zero or as no number. -/
def flt_reads (host : Host) (v : JSVal) : Bool :=
  match v with
  | JSVal.undefined => !(host.flt JSVal.undefined).truthy
  | JSVal.null => !(host.flt JSVal.null).truthy
  | JSVal.num n =>
    if n.truthy then decide (host.flt (JSVal.num n) = n)
    else !(host.flt (JSVal.num n)).truthy
  | JSVal.bool _ => true
  | JSVal.str _ => true

/-- A host for the examples, whose `flt` reads a number as itself, the text
"10" as the number 10 and everything else as zero. -/
def example_host : Host :=
  { flt := fun v =>
      match v with
      | JSVal.num n => n
      | JSVal.str t => if t = "10" then JSNum.fin false 1026 1125899906842624 else JSNum.zero
      | _ => JSNum.zero
    num_to_string := fun _ => "" }

/-- An effect that is the lookup request `frappe.db.get_value`. -/
def Effect.isLookup : Effect → Bool
  | Effect.get_value _ _ _ => true
  | _ => false

/-- An effect that is a `frappe.call`. -/
def Effect.isCall : Effect → Bool
  | Effect.call _ _ => true
  | _ => false

/-- How many of the effects add the custom button with the given label. -/
def button_count (text : String) (effects : List Effect) : Nat :=
  (effects.filter (Effect.isButton text)).length

/-! ## Reading a document after writes -/

theorem Obj.set_same (o : Obj) (key : String) (v : JSVal) : (o.set key v) key = v := by
  simp [Obj.set]

theorem Obj.set_other (o : Obj) (key k : String) (v : JSVal) (h : k ≠ key) :
    (o.set key v) k = o k := by
  simp [Obj.set, h]

theorem Form.ext_doc (a b : Form) (hdoc : ∀ f, a.doc f = b.doc f) (hnew : a.is_new = b.is_new)
    (hlist : a.is_list = b.is_list) : a = b := by
  cases a
  cases b
  simp only [Form.mk.injEq]
  exact ⟨funext hdoc, hnew, hlist⟩

/-! ## Total calculation -/

theorem LMSInvoice.operand_counts_as (host : Host) (v : JSVal)
    (h : flt_reads host v = true) : (host.flt v).orZero = counts_as host v := by
  cases v with
  | undefined =>
    have h2 : (host.flt JSVal.undefined).truthy = false := by simpa [flt_reads] using h
    simp [JSNum.orZero, counts_as, h2]
  | null =>
    have h2 : (host.flt JSVal.null).truthy = false := by simpa [flt_reads] using h
    simp [JSNum.orZero, counts_as, h2]
  | bool b => rfl
  | str t => rfl
  | num n =>
    by_cases hn : n.truthy = true
    · have h2 : host.flt (JSVal.num n) = n := by simpa [flt_reads, hn] using h
      simp [JSNum.orZero, counts_as, h2, hn]
    · have h2 : (host.flt (JSVal.num n)).truthy = false := by simpa [flt_reads, hn] using h
      simp [JSNum.orZero, counts_as, h2, hn]

theorem LMSInvoice.calculate_total_doc (host : Host) (frm : Form)
    (ha : flt_reads host (frm.doc "amount") = true)
    (ht : flt_reads host (frm.doc "tax_amount") = true) :
    (LMSInvoice.calculate_total host frm).doc "total_amount"
      = JSVal.num ((counts_as host (frm.doc "amount")).add
          (counts_as host (frm.doc "tax_amount"))) := by
  simp only [LMSInvoice.calculate_total, Form.set_value, Obj.set_same,
    LMSInvoice.operand_counts_as host _ ha, LMSInvoice.operand_counts_as host _ ht]

/-- C1: after the handler of a change to `amount`, and after the handler of a
change to `tax_amount`, `total_amount` is the JavaScript sum of what `amount`
and `tax_amount` count as: a missing value and a value that is not a number
count as 0, a number counts as itself. The helper `flt` of the framework is
assumed to read the two field values as the specification says. -/
theorem LMSInvoice.total_amount_is_sum (host : Host) (frm : Form)
    (ha : flt_reads host (frm.doc "amount") = true)
    (ht : flt_reads host (frm.doc "tax_amount") = true) :
    (LMSInvoice.amount host frm).doc "total_amount"
        = JSVal.num ((counts_as host (frm.doc "amount")).add
            (counts_as host (frm.doc "tax_amount")))
    ∧ (LMSInvoice.tax_amount host frm).doc "total_amount"
        = JSVal.num ((counts_as host (frm.doc "amount")).add
            (counts_as host (frm.doc "tax_amount"))) := by
  constructor
  · simp only [LMSInvoice.amount, LMSInvoice.trigger, if_true]
    exact LMSInvoice.calculate_total_doc host frm ha ht
  · simp only [LMSInvoice.tax_amount, LMSInvoice.trigger, if_true]
    exact LMSInvoice.calculate_total_doc host frm ha ht

theorem LMSInvoice.total_amount_is_sum_witness :
    (LMSInvoice.amount example_host
        ⟨(Obj.empty.set "amount" (JSVal.str "10")).set "tax_amount" JSVal.null,
          false, JSVal.undefined⟩).doc "total_amount"
      = JSVal.num (JSNum.fin false 1026 1125899906842624)
    ∧ (LMSInvoice.tax_amount example_host
        ⟨(Obj.empty.set "amount" (JSVal.str "10")).set "tax_amount" JSVal.null,
          false, JSVal.undefined⟩).doc "total_amount"
      = JSVal.num (JSNum.fin false 1026 1125899906842624) :=
  LMSInvoice.total_amount_is_sum example_host
    ⟨(Obj.empty.set "amount" (JSVal.str "10")).set "tax_amount" JSVal.null,
      false, JSVal.undefined⟩ (by decide) (by decide)

/-- The sum is rounded as the JavaScript `+` rounds it: 0.1 + 0.2 is
0.30000000000000004, 2 ^ 53 + 1 is 2 ^ 53, and the largest finite value
added to itself is `Infinity`. -/
theorem JSNum.add_rounds :
    (JSNum.fin false 1019 2702159776422298).add (JSNum.fin false 1020 2702159776422298)
        = JSNum.fin false 1021 900719925474100
    ∧ (JSNum.fin false 1076 0).add (JSNum.fin false 1023 0) = JSNum.fin false 1076 0
    ∧ (JSNum.fin false 2046 4503599627370495).add (JSNum.fin false 2046 4503599627370495)
        = JSNum.inf false := by
  decide

/-- The total of two numeric fields is their rounded sum: 0.1 and 0.2 give
0.30000000000000004. -/
theorem LMSInvoice.total_amount_rounds :
    (LMSInvoice.amount example_host
        ⟨(Obj.empty.set "amount" (JSVal.num (JSNum.fin false 1019 2702159776422298))).set
            "tax_amount" (JSVal.num (JSNum.fin false 1020 2702159776422298)),
          false, JSVal.undefined⟩).doc "total_amount"
      = JSVal.num (JSNum.fin false 1021 900719925474100) := by
  decide

/-! ## Clearing the payment reference -/

/-- C3: when `payment_reference` is empty, the handler leaves `null` in
`order_id`, `payment_id`, `billing_name`, `address`, `gstn` and `pan`, and
leaves every other field of the invoice as it was. -/
theorem LMSInvoice.clear_exactly_dependent_fields (host : Host) (frm : Form)
    (r_message : Option Obj) (title_message : Obj)
    (hempty : (frm.doc "payment_reference").truthy = false) (f : String) :
    (LMSInvoice.payment_reference host frm r_message title_message).doc f
      = if f ∈ ["order_id", "payment_id", "billing_name", "address", "gstn", "pan"]
        then JSVal.null else frm.doc f := by
  simp only [LMSInvoice.payment_reference, hempty, Bool.false_eq_true, if_false,
    LMSInvoice.cleared_fields, List.foldl, Form.set_value, Obj.set]
  simp only [List.mem_cons, List.mem_singleton, List.not_mem_nil, or_false]
  split_ifs <;> simp_all

theorem LMSInvoice.clear_exactly_dependent_fields_witness :
    (LMSInvoice.payment_reference ⟨fun _ => JSNum.nan, fun _ => ""⟩
        ⟨(Obj.empty.set "address" (JSVal.str "12 Main St")).set "customer" (JSVal.str "a@b.c"),
          false, JSVal.undefined⟩ none Obj.empty).doc "address" = JSVal.null
    ∧ (LMSInvoice.payment_reference ⟨fun _ => JSNum.nan, fun _ => ""⟩
        ⟨(Obj.empty.set "address" (JSVal.str "12 Main St")).set "customer" (JSVal.str "a@b.c"),
          false, JSVal.undefined⟩ none Obj.empty).doc "customer" = JSVal.str "a@b.c" :=
  ⟨LMSInvoice.clear_exactly_dependent_fields ⟨fun _ => JSNum.nan, fun _ => ""⟩
      ⟨(Obj.empty.set "address" (JSVal.str "12 Main St")).set "customer" (JSVal.str "a@b.c"),
        false, JSVal.undefined⟩ none Obj.empty (by decide) "address",
    LMSInvoice.clear_exactly_dependent_fields ⟨fun _ => JSNum.nan, fun _ => ""⟩
      ⟨(Obj.empty.set "address" (JSVal.str "12 Main St")).set "customer" (JSVal.str "a@b.c"),
        false, JSVal.undefined⟩ none Obj.empty (by decide) "customer"⟩

/-! ## Sending the invoice by email -/

/-- C6: when `customer` is empty, `send_invoice_email` shows the message
"Please select a customer first" and nothing else; in particular it makes no
request. -/
theorem LMSInvoice.send_email_requires_customer (host : Host) (frm : Form) (r_message : JSVal)
    (hempty : (frm.doc "customer").truthy = false) :
    LMSInvoice.send_invoice_email host frm r_message
        = [Effect.msgprint (gettext "Please select a customer first")]
    ∧ (LMSInvoice.send_invoice_email host frm r_message).any Effect.isCall = false := by
  simp [LMSInvoice.send_invoice_email, hempty, Effect.isCall]

theorem LMSInvoice.send_email_requires_customer_witness :
    LMSInvoice.send_invoice_email ⟨fun _ => JSNum.nan, fun _ => ""⟩
        ⟨Obj.empty.set "customer" (JSVal.str ""), false, JSVal.undefined⟩ (JSVal.bool true)
        = [Effect.msgprint (gettext "Please select a customer first")]
    ∧ (LMSInvoice.send_invoice_email ⟨fun _ => JSNum.nan, fun _ => ""⟩
        ⟨Obj.empty.set "customer" (JSVal.str ""), false, JSVal.undefined⟩
        (JSVal.bool true)).any Effect.isCall = false :=
  LMSInvoice.send_email_requires_customer _ _ _ (by decide)

/-! ## The invoice actions of the payment form -/

/-- C7, as the claim states it, fails twice: for a saved payment that is not
marked received, `refresh` adds neither "Create Invoice" nor "View Invoice",
and for a received one whose lookup fails it adds neither as well. -/
theorem LMSPayment.refresh_not_received_adds_no_button :
    (button_count "Create Invoice"
        (LMSPayment.refresh
          ⟨(Obj.empty.set "name" (JSVal.str "PAY-001")).set "payment_received"
              (JSVal.num JSNum.zero), false, JSVal.undefined⟩
          (LMSPayment.LookupReply.resolved (some Obj.empty))) = 0
      ∧ button_count "View Invoice"
        (LMSPayment.refresh
          ⟨(Obj.empty.set "name" (JSVal.str "PAY-001")).set "payment_received"
              (JSVal.num JSNum.zero), false, JSVal.undefined⟩
          (LMSPayment.LookupReply.resolved (some Obj.empty))) = 0)
    ∧ (button_count "Create Invoice"
        (LMSPayment.refresh
          ⟨(Obj.empty.set "name" (JSVal.str "PAY-001")).set "payment_received"
              (JSVal.num (JSNum.fin false 1023 0)), false, JSVal.undefined⟩
          LMSPayment.LookupReply.rejected) = 0
      ∧ button_count "View Invoice"
        (LMSPayment.refresh
          ⟨(Obj.empty.set "name" (JSVal.str "PAY-001")).set "payment_received"
              (JSVal.num (JSNum.fin false 1023 0)), false, JSVal.undefined⟩
          LMSPayment.LookupReply.rejected) = 0) := by
  decide

/-- C7, amended: for a payment that is marked received and is not new,
`refresh` makes the lookup and, when the lookup is answered with a message,
adds exactly one of the two buttons, "View Invoice" when the message names an
invoice and "Create Invoice" when it names none; when the lookup fails or is
answered without a message it adds neither; for any other payment it makes
no lookup and adds neither. -/
theorem LMSPayment.refresh_invoice_buttons (frm : Form) (reply : LMSPayment.LookupReply) :
    (button_count "Create Invoice" (LMSPayment.refresh frm reply),
      button_count "View Invoice" (LMSPayment.refresh frm reply),
      ((LMSPayment.refresh frm reply).filter Effect.isLookup).length)
      = if (frm.doc "payment_received").truthy && !frm.is_new then
          (match reply with
            | LMSPayment.LookupReply.resolved (some r_message) =>
              if (r_message "name").truthy then (0, 1, 1) else (1, 0, 1)
            | LMSPayment.LookupReply.resolved none => (0, 0, 1)
            | LMSPayment.LookupReply.rejected => (0, 0, 1))
        else (0, 0, 0) := by
  unfold LMSPayment.refresh button_count
  by_cases hl : frm.is_list.truthy = true <;>
  by_cases hr : (frm.doc "payment_received").truthy = true <;>
  by_cases hn : frm.is_new = true <;>
  rcases reply with _ | _ | r_message <;>
  simp [hl, hr, hn, Effect.isButton, Effect.isLookup, gettext] <;>
  by_cases hm : (r_message "name").truthy = true <;>
  simp [hm, Effect.isButton, Effect.isLookup, gettext]

/-! ## The query of the create-from-payment dialog -/

/-- C9, the code at one linked invoice: the operand of the `not in` filter
that `get_query` returns is a promise, not the list of the linked
payments. -/
theorem LMSInvoice.get_query_operand_is_promise :
    (LMSInvoice.create_from_payment_get_query
        [Obj.empty.set "payment_reference" (JSVal.str "PAY-001")]).filters
      = [("name", "not in", LMSInvoice.FilterOperand.promise [JSVal.str "PAY-001"])]
    ∧ (LMSInvoice.create_from_payment_get_query
        [Obj.empty.set "payment_reference" (JSVal.str "PAY-001")]).filters
      ≠ [("name", "not in", LMSInvoice.FilterOperand.values [JSVal.str "PAY-001"])] := by
  simp [LMSInvoice.create_from_payment_get_query, Obj.set]

/-! ## The field-sync of the payment reference -/

theorem LMSInvoice.copy_field_doc (payment : Obj) (frm : Form) (entry : String × String)
    (f : String) :
    (LMSInvoice.copy_field payment frm entry).doc f
      = if f = entry.2 ∧ (payment entry.1).truthy = true ∧ (frm.doc f).truthy = false
        then payment entry.1 else frm.doc f := by
  unfold LMSInvoice.copy_field
  by_cases hf : f = entry.2
  · subst hf
    by_cases hp : (payment entry.1).truthy = true <;>
    by_cases hd : (frm.doc entry.2).truthy = true <;>
    simp [hp, hd, Form.set_value, Obj.set]
  · by_cases hp : (payment entry.1).truthy = true <;>
    by_cases hd : (frm.doc entry.2).truthy = true <;>
    simp [hp, hd, hf, Form.set_value, Obj.set]

theorem LMSInvoice.copy_field_frame (payment : Obj) (frm : Form) (entry : String × String) :
    (LMSInvoice.copy_field payment frm entry).is_new = frm.is_new
    ∧ (LMSInvoice.copy_field payment frm entry).is_list = frm.is_list := by
  simp only [LMSInvoice.copy_field]
  split_ifs <;> simp [Form.set_value]

/-- The document after the copy loop over a table `m` whose invoice fields
are pairwise distinct. -/
theorem LMSInvoice.foldl_copy_field_doc (payment : Obj) (m : List (String × String))
    (hm : (m.map Prod.snd).Nodup) (frm : Form) (f : String) :
    (m.foldl (LMSInvoice.copy_field payment) frm).doc f
      = match m.find? (fun e => decide (e.2 = f)) with
        | some e =>
          if (payment e.1).truthy = true ∧ (frm.doc f).truthy = false then payment e.1
          else frm.doc f
        | none => frm.doc f := by
  induction m generalizing frm with
  | nil => simp
  | cons x xs ih =>
    simp only [List.map_cons, List.nodup_cons] at hm
    rw [List.foldl_cons, ih hm.2, LMSInvoice.copy_field_doc]
    by_cases hx : x.2 = f
    · have hnone : xs.find? (fun e => decide (e.2 = f)) = none := by
        rw [List.find?_eq_none]
        intro e he
        simp only [decide_eq_true_eq]
        intro hef
        apply hm.1
        rw [hx, ← hef]
        exact List.mem_map_of_mem Prod.snd he
      simp [hnone, hx, List.find?_cons]
    · have hx2 : ¬ f = x.2 := fun h => hx h.symm
      simp [hx, hx2, List.find?_cons]

theorem LMSInvoice.foldl_copy_field_frame (payment : Obj) (m : List (String × String))
    (frm : Form) :
    (m.foldl (LMSInvoice.copy_field payment) frm).is_new = frm.is_new
    ∧ (m.foldl (LMSInvoice.copy_field payment) frm).is_list = frm.is_list := by
  induction m generalizing frm with
  | nil => simp
  | cons x xs ih =>
    rw [List.foldl_cons]
    exact ⟨(ih _).1.trans (LMSInvoice.copy_field_frame payment frm x).1,
      (ih _).2.trans (LMSInvoice.copy_field_frame payment frm x).2⟩

theorem LMSInvoice.field_map_nodup : (LMSInvoice.field_map.map Prod.snd).Nodup := by
  decide

theorem LMSInvoice.copy_loop_other (payment : Obj) (frm : Form) (f : String)
    (hf : f ∉ LMSInvoice.field_map.map Prod.snd) :
    (LMSInvoice.field_map.foldl (LMSInvoice.copy_field payment) frm).doc f = frm.doc f := by
  rw [LMSInvoice.foldl_copy_field_doc payment _ LMSInvoice.field_map_nodup]
  have hnone : LMSInvoice.field_map.find? (fun e => decide (e.2 = f)) = none := by
    rw [List.find?_eq_none]
    intro e he
    simp only [decide_eq_true_eq]
    intro hef
    apply hf
    rw [← hef]
    exact List.mem_map_of_mem Prod.snd he
  simp [hnone]

theorem LMSInvoice.copy_loop_entry (payment : Obj) (frm : Form) (entry : String × String)
    (he : entry ∈ LMSInvoice.field_map) :
    (LMSInvoice.field_map.foldl (LMSInvoice.copy_field payment) frm).doc entry.2
      = if (payment entry.1).truthy = true ∧ (frm.doc entry.2).truthy = false
        then payment entry.1 else frm.doc entry.2 := by
  rw [LMSInvoice.foldl_copy_field_doc payment _ LMSInvoice.field_map_nodup]
  simp only [LMSInvoice.field_map, List.mem_cons, List.mem_singleton, List.not_mem_nil,
    or_false] at he
  rcases he with h | h | h | h | h | h | h | h | h <;> subst h <;>
    simp [LMSInvoice.field_map, List.find?_cons]

theorem LMSInvoice.copy_loop_truthy (payment : Obj) (frm : Form) (f : String)
    (h : (frm.doc f).truthy = true) :
    (LMSInvoice.field_map.foldl (LMSInvoice.copy_field payment) frm).doc f = frm.doc f := by
  rw [LMSInvoice.foldl_copy_field_doc payment _ LMSInvoice.field_map_nodup]
  cases LMSInvoice.field_map.find? (fun e => decide (e.2 = f)) <;> simp [h]

theorem LMSInvoice.sync_pending (frm : Form) (payment : Obj) :
    (LMSInvoice.payment_reference_sync frm payment).2
      = if (payment "payment_for_document_type").truthy = true
            ∧ (payment "payment_for_document").truthy = true then
          (if payment "payment_for_document_type" = JSVal.str "LMS Course" then some "Course: "
           else if payment "payment_for_document_type" = JSVal.str "LMS Batch"
             then some "Batch: "
           else none)
        else none := by
  simp only [LMSInvoice.payment_reference_sync]
  split_ifs <;> simp_all

theorem LMSInvoice.sync_doc (frm : Form) (payment : Obj) (f : String) :
    (LMSInvoice.payment_reference_sync frm payment).1.doc f
      = if f = "status" ∧ (payment "payment_received").truthy = true
            ∧ frm.doc "status" = JSVal.str "Draft" then JSVal.str "Paid"
        else if f = "course" ∧ (payment "payment_for_document_type").truthy = true
            ∧ (payment "payment_for_document").truthy = true
            ∧ payment "payment_for_document_type" = JSVal.str "LMS Course"
          then payment "payment_for_document"
        else (LMSInvoice.field_map.foldl (LMSInvoice.copy_field payment) frm).doc f := by
  have hstatus : (LMSInvoice.field_map.foldl (LMSInvoice.copy_field payment) frm).doc "status"
      = frm.doc "status" :=
    LMSInvoice.copy_loop_other payment frm "status" (by decide)
  have hc : (JSVal.str "LMS Course").truthy = true := by decide
  simp only [LMSInvoice.payment_reference_sync]
  split_ifs <;> simp_all [Form.set_value, Obj.set]

theorem LMSInvoice.sync_frame (frm : Form) (payment : Obj) :
    (LMSInvoice.payment_reference_sync frm payment).1.is_new = frm.is_new
    ∧ (LMSInvoice.payment_reference_sync frm payment).1.is_list = frm.is_list := by
  have h := LMSInvoice.foldl_copy_field_frame payment LMSInvoice.field_map frm
  simp only [LMSInvoice.payment_reference_sync]
  split_ifs <;> simp_all [Form.set_value]

theorem LMSInvoice.copy_loop_idem (payment : Obj) (frm frm2 : Form) (f : String)
    (h : frm2.doc f = (LMSInvoice.field_map.foldl (LMSInvoice.copy_field payment) frm).doc f) :
    (LMSInvoice.field_map.foldl (LMSInvoice.copy_field payment) frm2).doc f
      = (LMSInvoice.field_map.foldl (LMSInvoice.copy_field payment) frm).doc f := by
  rw [LMSInvoice.foldl_copy_field_doc payment _ LMSInvoice.field_map_nodup] at h ⊢
  rw [LMSInvoice.foldl_copy_field_doc payment _ LMSInvoice.field_map_nodup]
  cases hfind : LMSInvoice.field_map.find? (fun e => decide (e.2 = f)) with
  | none =>
    rw [hfind] at h
    simpa using h
  | some e =>
    rw [hfind] at h
    simp only at h ⊢
    by_cases hp : (payment e.1).truthy = true <;>
    by_cases hd : (frm.doc f).truthy = true <;>
    simp_all

theorem LMSInvoice.callback_doc (host : Host) (frm : Form) (payment title_message : Obj)
    (f : String) :
    (LMSInvoice.payment_reference_callback host frm (some payment) title_message).doc f
      = match (LMSInvoice.payment_reference_sync frm payment).2 with
        | some label =>
          if f = "payment_for" ∧ (title_message "title").truthy = true then
            JSVal.str (label ++ host.toStr (title_message "title"))
          else (LMSInvoice.payment_reference_sync frm payment).1.doc f
        | none => (LMSInvoice.payment_reference_sync frm payment).1.doc f := by
  simp only [LMSInvoice.payment_reference_callback]
  cases (LMSInvoice.payment_reference_sync frm payment).2 with
  | none => rfl
  | some label =>
    simp only [LMSInvoice.title_then]
    split_ifs <;> simp_all [Form.set_value, Obj.set]

theorem LMSInvoice.callback_frame (host : Host) (frm : Form) (r_message : Option Obj)
    (title_message : Obj) :
    (LMSInvoice.payment_reference_callback host frm r_message title_message).is_new
        = frm.is_new
    ∧ (LMSInvoice.payment_reference_callback host frm r_message title_message).is_list
        = frm.is_list := by
  cases r_message with
  | none => simp [LMSInvoice.payment_reference_callback]
  | some payment =>
    have h := LMSInvoice.sync_frame frm payment
    simp only [LMSInvoice.payment_reference_callback]
    cases (LMSInvoice.payment_reference_sync frm payment).2 with
    | none => exact h
    | some label =>
      simp only [LMSInvoice.title_then]
      split_ifs <;> simp_all [Form.set_value]

/-- The fields the field-sync reads or writes apart from the copied ones are
not invoice fields of the rename table. -/
theorem LMSInvoice.field_map_targets (f : String)
    (hf : f ∈ LMSInvoice.field_map.map Prod.snd) :
    f ≠ "payment_for" ∧ f ≠ "status" ∧ f ≠ "course" ∧ f ≠ "payment_reference" := by
  simp only [LMSInvoice.field_map, List.map_cons, List.map_nil, List.mem_cons,
    List.mem_singleton, List.not_mem_nil, or_false] at hf
  rcases hf with h | h | h | h | h | h | h | h | h <;> subst h <;> decide

/-- The document after the field-sync, at an invoice field of the rename
table. -/
theorem LMSInvoice.callback_doc_target (host : Host) (frm : Form) (payment title_message : Obj)
    (f : String) (hf : f ∈ LMSInvoice.field_map.map Prod.snd) :
    (LMSInvoice.payment_reference_callback host frm (some payment) title_message).doc f
      = (LMSInvoice.field_map.foldl (LMSInvoice.copy_field payment) frm).doc f := by
  obtain ⟨h1, h2, h3, _⟩ := LMSInvoice.field_map_targets f hf
  rw [LMSInvoice.callback_doc]
  cases (LMSInvoice.payment_reference_sync frm payment).2 <;>
    simp [LMSInvoice.sync_doc, h1, h2, h3]

/-- C2: the field-sync leaves every non-empty invoice field of the rename
table (`customer`, `order_id`, `payment_id`, `currency`, `amount`,
`billing_name`, `address`, `gstn`, `pan`) as it was, whatever the fetched
payment holds; a field is non-empty when its value is truthy. -/
theorem LMSInvoice.sync_keeps_non_empty_field (host : Host) (frm : Form)
    (payment title_message : Obj) (f : String)
    (hf : f ∈ ["customer", "order_id", "payment_id", "currency", "amount", "billing_name",
      "address", "gstn", "pan"])
    (hfull : (frm.doc f).truthy = true) :
    (LMSInvoice.payment_reference_callback host frm (some payment) title_message).doc f
      = frm.doc f := by
  rw [LMSInvoice.callback_doc_target host frm payment title_message f
    (show f ∈ LMSInvoice.field_map.map Prod.snd from hf)]
  exact LMSInvoice.copy_loop_truthy payment frm f hfull

theorem LMSInvoice.sync_keeps_non_empty_field_witness :
    (LMSInvoice.payment_reference_callback ⟨fun _ => JSNum.nan, fun _ => ""⟩
        ⟨Obj.empty.set "billing_name" (JSVal.str "X"), false, JSVal.undefined⟩
        (some (Obj.empty.set "billing_name" (JSVal.str "Y"))) Obj.empty).doc "billing_name"
      = JSVal.str "X" :=
  LMSInvoice.sync_keeps_non_empty_field ⟨fun _ => JSNum.nan, fun _ => ""⟩
    ⟨Obj.empty.set "billing_name" (JSVal.str "X"), false, JSVal.undefined⟩
    (Obj.empty.set "billing_name" (JSVal.str "Y")) Obj.empty "billing_name"
    (by decide) (by decide)

/-- C4: the field-sync changes `status` exactly when the fetched payment is
marked received and the status is "Draft", and then to "Paid"; in every other
case `status` is as it was. -/
theorem LMSInvoice.sync_status (host : Host) (frm : Form) (payment title_message : Obj) :
    (LMSInvoice.payment_reference_callback host frm (some payment) title_message).doc "status"
      = if (payment "payment_received").truthy = true ∧ frm.doc "status" = JSVal.str "Draft"
        then JSVal.str "Paid" else frm.doc "status" := by
  have hstatus : (LMSInvoice.field_map.foldl (LMSInvoice.copy_field payment) frm).doc "status"
      = frm.doc "status" :=
    LMSInvoice.copy_loop_other payment frm "status" (by decide)
  rw [LMSInvoice.callback_doc]
  cases (LMSInvoice.payment_reference_sync frm payment).2 <;>
    simp [LMSInvoice.sync_doc, hstatus]

/-- C5, as the claim states it, fails twice: a label the invoice already
carries stays when the payment is for neither a course nor a batch, and no
label is written for a course whose looked-up title is empty. -/
theorem LMSInvoice.payment_for_not_always_as_claimed :
    (LMSInvoice.payment_reference_callback ⟨fun _ => JSNum.nan, fun _ => ""⟩
        ⟨Obj.empty.set "payment_for" (JSVal.str "Course: Old"), false, JSVal.undefined⟩
        (some ((Obj.empty.set "payment_for_document_type" (JSVal.str "LMS Program")).set
          "payment_for_document" (JSVal.str "P1")))
        (Obj.empty.set "title" (JSVal.str "Programme"))).doc "payment_for"
      = JSVal.str "Course: Old"
    ∧ (LMSInvoice.payment_reference_callback ⟨fun _ => JSNum.nan, fun _ => ""⟩
        ⟨Obj.empty, false, JSVal.undefined⟩
        (some ((Obj.empty.set "payment_for_document_type" (JSVal.str "LMS Course")).set
          "payment_for_document" (JSVal.str "C1")))
        (Obj.empty.set "title" (JSVal.str ""))).doc "payment_for"
      = JSVal.undefined := by
  constructor
  · rw [LMSInvoice.callback_doc, LMSInvoice.sync_pending, LMSInvoice.sync_doc,
      LMSInvoice.copy_loop_other _ _ _ (by decide)]
    simp [Obj.set, Obj.empty, JSVal.truthy]
  · rw [LMSInvoice.callback_doc, LMSInvoice.sync_pending, LMSInvoice.sync_doc,
      LMSInvoice.copy_loop_other _ _ _ (by decide)]
    simp [Obj.set, Obj.empty, JSVal.truthy]

/-- C5, amended: after the field-sync `payment_for` is "Course: <title>" when
the payment is for an LMS Course, names its target document and the
looked-up title is not empty, "Batch: <title>" when the same holds for an
LMS Batch, and in every other case what it was before the sync. -/
theorem LMSInvoice.sync_payment_for (host : Host) (frm : Form) (payment title_message : Obj) :
    (LMSInvoice.payment_reference_callback host frm (some payment) title_message).doc
        "payment_for"
      = if payment "payment_for_document_type" = JSVal.str "LMS Course"
            ∧ (payment "payment_for_document").truthy = true
            ∧ (title_message "title").truthy = true then
          JSVal.str ("Course: " ++ host.toStr (title_message "title"))
        else if payment "payment_for_document_type" = JSVal.str "LMS Batch"
            ∧ (payment "payment_for_document").truthy = true
            ∧ (title_message "title").truthy = true then
          JSVal.str ("Batch: " ++ host.toStr (title_message "title"))
        else frm.doc "payment_for" := by
  have hother :
      (LMSInvoice.field_map.foldl (LMSInvoice.copy_field payment) frm).doc "payment_for"
        = frm.doc "payment_for" :=
    LMSInvoice.copy_loop_other payment frm "payment_for" (by decide)
  have hc : (JSVal.str "LMS Course").truthy = true := by decide
  have hb : (JSVal.str "LMS Batch").truthy = true := by decide
  rw [LMSInvoice.callback_doc, LMSInvoice.sync_pending, LMSInvoice.sync_doc, hother]
  by_cases h1 : payment "payment_for_document_type" = JSVal.str "LMS Course"
  · by_cases h2 : (payment "payment_for_document").truthy = true <;>
    by_cases h3 : (title_message "title").truthy = true <;>
    simp [h1, h2, h3, hc]
  · by_cases hB : payment "payment_for_document_type" = JSVal.str "LMS Batch"
    · by_cases h2 : (payment "payment_for_document").truthy = true <;>
      by_cases h3 : (title_message "title").truthy = true <;>
      simp [hB, h2, h3, hb]
    · by_cases h0 : (payment "payment_for_document_type").truthy = true <;>
      by_cases h2 : (payment "payment_for_document").truthy = true <;>
      simp [h1, hB, h0, h2]

/-- C8, as the claim states it, fails: an empty invoice field does not take
an empty value of the payment. With `address` cleared to `null` on the
invoice and `address` equal to the empty string on the payment, the invoice
field is still `null` after the sync. -/
theorem LMSInvoice.sync_does_not_copy_empty_value :
    (LMSInvoice.payment_reference ⟨fun _ => JSNum.nan, fun _ => ""⟩
        ⟨(Obj.empty.set "payment_reference" (JSVal.str "PAY-001")).set "address" JSVal.null,
          false, JSVal.undefined⟩
        (some (Obj.empty.set "address" (JSVal.str ""))) Obj.empty).doc "address"
      = JSVal.null
    ∧ (Obj.empty.set "address" (JSVal.str "")) "address" = JSVal.str "" := by
  constructor
  · have href : ((((Obj.empty.set "payment_reference" (JSVal.str "PAY-001")).set "address"
        JSVal.null) : Obj) "payment_reference").truthy = true := by decide
    simp only [LMSInvoice.payment_reference, href, if_true]
    rw [LMSInvoice.callback_doc_target _ _ _ _ _ (by decide),
      LMSInvoice.copy_loop_entry _ _ ("address", "address") (by decide)]
    decide
  · decide

/-- C8, amended: with a non-empty `payment_reference`, for each pair of the
rename table whose invoice field is empty before the sync, the invoice field
afterwards equals the payment's value when that value is not empty, and is
as it was when that value is empty. -/
theorem LMSInvoice.sync_fills_empty_field (host : Host) (frm : Form)
    (payment title_message : Obj) (entry : String × String)
    (he : entry ∈ [("member", "customer"), ("order_id", "order_id"),
      ("payment_id", "payment_id"), ("currency", "currency"), ("amount", "amount"),
      ("billing_name", "billing_name"), ("address", "address"), ("gstin", "gstn"),
      ("pan", "pan")])
    (href : (frm.doc "payment_reference").truthy = true)
    (hempty : (frm.doc entry.2).truthy = false) :
    (LMSInvoice.payment_reference host frm (some payment) title_message).doc entry.2
      = if (payment entry.1).truthy = true then payment entry.1 else frm.doc entry.2 := by
  have hmem : entry ∈ LMSInvoice.field_map := he
  simp only [LMSInvoice.payment_reference, href, if_true]
  rw [LMSInvoice.callback_doc_target _ _ _ _ _ (List.mem_map_of_mem Prod.snd hmem),
    LMSInvoice.copy_loop_entry _ _ entry hmem]
  simp [hempty]

theorem LMSInvoice.sync_fills_empty_field_witness :
    (LMSInvoice.payment_reference ⟨fun _ => JSNum.nan, fun _ => ""⟩
        ⟨Obj.empty.set "payment_reference" (JSVal.str "PAY-001"), false, JSVal.undefined⟩
        (some (Obj.empty.set "gstin" (JSVal.str "22AAAAA0000A1Z5"))) Obj.empty).doc "gstn"
      = JSVal.str "22AAAAA0000A1Z5" :=
  LMSInvoice.sync_fills_empty_field ⟨fun _ => JSNum.nan, fun _ => ""⟩
    ⟨Obj.empty.set "payment_reference" (JSVal.str "PAY-001"), false, JSVal.undefined⟩
    (Obj.empty.set "gstin" (JSVal.str "22AAAAA0000A1Z5")) Obj.empty ("gstin", "gstn")
    (by decide) (by decide) (by decide)

/-! ## Idempotence of the handler -/

theorem LMSInvoice.clear_doc (frm : Form) (f : String) :
    (LMSInvoice.cleared_fields.foldl (fun frm field => frm.set_value field JSVal.null) frm).doc f
      = if f ∈ LMSInvoice.cleared_fields then JSVal.null else frm.doc f := by
  simp only [LMSInvoice.cleared_fields, List.foldl, Form.set_value, Obj.set]
  simp only [List.mem_cons, List.mem_singleton, List.not_mem_nil, or_false]
  split_ifs <;> simp_all

theorem LMSInvoice.clear_frame (frm : Form) :
    (LMSInvoice.cleared_fields.foldl (fun frm field => frm.set_value field JSVal.null)
        frm).is_new = frm.is_new
    ∧ (LMSInvoice.cleared_fields.foldl (fun frm field => frm.set_value field JSVal.null)
        frm).is_list = frm.is_list := by
  simp [LMSInvoice.cleared_fields, List.foldl, Form.set_value]

/-- The synchronous part of the callback, run on a form that agrees with its
own result away from `payment_for`, reproduces that result. -/
theorem LMSInvoice.sync_doc_idem (frm frm2 : Form) (payment : Obj) (f : String)
    (h : ∀ g, g ≠ "payment_for" →
      frm2.doc g = (LMSInvoice.payment_reference_sync frm payment).1.doc g)
    (hf : f ≠ "payment_for") :
    (LMSInvoice.payment_reference_sync frm2 payment).1.doc f
      = (LMSInvoice.payment_reference_sync frm payment).1.doc f := by
  have hstatus : (LMSInvoice.field_map.foldl (LMSInvoice.copy_field payment) frm).doc "status"
      = frm.doc "status" :=
    LMSInvoice.copy_loop_other payment frm "status" (by decide)
  have hcourse : (LMSInvoice.field_map.foldl (LMSInvoice.copy_field payment) frm).doc "course"
      = frm.doc "course" :=
    LMSInvoice.copy_loop_other payment frm "course" (by decide)
  have hstatus2 :
      (LMSInvoice.field_map.foldl (LMSInvoice.copy_field payment) frm2).doc "status"
        = frm2.doc "status" :=
    LMSInvoice.copy_loop_other payment frm2 "status" (by decide)
  have hcourse2 :
      (LMSInvoice.field_map.foldl (LMSInvoice.copy_field payment) frm2).doc "course"
        = frm2.doc "course" :=
    LMSInvoice.copy_loop_other payment frm2 "course" (by decide)
  have h2s := h "status" (by decide)
  have h2c := h "course" (by decide)
  have h2f := h f hf
  rw [LMSInvoice.sync_doc] at h2s h2c h2f
  rw [LMSInvoice.sync_doc, LMSInvoice.sync_doc]
  by_cases hs : f = "status"
  · subst hs
    by_cases hr : (payment "payment_received").truthy = true <;>
    by_cases hd : frm.doc "status" = JSVal.str "Draft" <;>
    simp_all
  · by_cases hc : f = "course"
    · subst hc
      by_cases hcc : (payment "payment_for_document_type").truthy = true
            ∧ (payment "payment_for_document").truthy = true
            ∧ payment "payment_for_document_type" = JSVal.str "LMS Course"
      · have hlc : (JSVal.str "LMS Course").truthy = true := by decide
        simp [hcc, hlc]
      · simp_all
    · simp only [hs, hc, false_and, if_false] at h2f ⊢
      exact LMSInvoice.copy_loop_idem payment frm frm2 f h2f

theorem LMSInvoice.callback_doc_away (host : Host) (frm : Form) (payment title_message : Obj)
    (g : String) (hg : g ≠ "payment_for") :
    (LMSInvoice.payment_reference_callback host frm (some payment) title_message).doc g
      = (LMSInvoice.payment_reference_sync frm payment).1.doc g := by
  rw [LMSInvoice.callback_doc]
  cases (LMSInvoice.payment_reference_sync frm payment).2 <;> simp [hg]

theorem LMSInvoice.sync_doc_payment_for (frm : Form) (payment : Obj) :
    (LMSInvoice.payment_reference_sync frm payment).1.doc "payment_for"
      = frm.doc "payment_for" := by
  rw [LMSInvoice.sync_doc, LMSInvoice.copy_loop_other payment frm "payment_for" (by decide)]
  simp

theorem LMSInvoice.callback_idem (host : Host) (frm : Form) (payment title_message : Obj) :
    LMSInvoice.payment_reference_callback host
        (LMSInvoice.payment_reference_callback host frm (some payment) title_message)
        (some payment) title_message
      = LMSInvoice.payment_reference_callback host frm (some payment) title_message := by
  apply Form.ext_doc
  · intro f
    by_cases hf : f = "payment_for"
    · subst hf
      rw [LMSInvoice.callback_doc, LMSInvoice.sync_doc_payment_for, LMSInvoice.sync_pending]
      rw [LMSInvoice.callback_doc host frm, LMSInvoice.sync_pending]
      split
      · split_ifs <;> rfl
      · rfl
    · rw [LMSInvoice.callback_doc_away _ _ _ _ _ hf, LMSInvoice.callback_doc_away _ _ _ _ _ hf]
      exact LMSInvoice.sync_doc_idem frm _ payment f
        (fun g hg => LMSInvoice.callback_doc_away host frm payment title_message g hg) hf
  · rw [(LMSInvoice.callback_frame host _ _ _).1]
  · rw [(LMSInvoice.callback_frame host _ _ _).2]

theorem LMSInvoice.payment_reference_set (host : Host) (frm : Form) (r_message : Option Obj)
    (title_message : Obj) (h : (frm.doc "payment_reference").truthy = true) :
    LMSInvoice.payment_reference host frm r_message title_message
      = LMSInvoice.payment_reference_callback host frm r_message title_message := by
  simp [LMSInvoice.payment_reference, h]

theorem LMSInvoice.payment_reference_unset (host : Host) (frm : Form) (r_message : Option Obj)
    (title_message : Obj) (h : (frm.doc "payment_reference").truthy = false) :
    LMSInvoice.payment_reference host frm r_message title_message
      = LMSInvoice.cleared_fields.foldl (fun frm field => frm.set_value field JSVal.null)
          frm := by
  simp [LMSInvoice.payment_reference, h]

/-- C10: the `payment_reference` handler is idempotent: run a second time
with the same fetched payment and the same looked-up title, it leaves the
form as the first run left it. -/
theorem LMSInvoice.payment_reference_idempotent (host : Host) (frm : Form)
    (r_message : Option Obj) (title_message : Obj) :
    LMSInvoice.payment_reference host
        (LMSInvoice.payment_reference host frm r_message title_message) r_message title_message
      = LMSInvoice.payment_reference host frm r_message title_message := by
  by_cases href : (frm.doc "payment_reference").truthy = true
  · rw [LMSInvoice.payment_reference_set host frm r_message title_message href]
    cases r_message with
    | none =>
      have hsame : LMSInvoice.payment_reference_callback host frm none title_message = frm := rfl
      rw [hsame, LMSInvoice.payment_reference_set host frm none title_message href, hsame]
    | some payment =>
      have hkeep :
          ((LMSInvoice.payment_reference_callback host frm (some payment) title_message).doc
              "payment_reference").truthy = true := by
        rw [LMSInvoice.callback_doc_away _ _ _ _ _ (by decide), LMSInvoice.sync_doc,
          LMSInvoice.copy_loop_other payment frm "payment_reference" (by decide)]
        simpa using href
      rw [LMSInvoice.payment_reference_set host _ _ _ hkeep]
      exact LMSInvoice.callback_idem host frm payment title_message
  · have href2 : (frm.doc "payment_reference").truthy = false := by simpa using href
    rw [LMSInvoice.payment_reference_unset host frm r_message title_message href2]
    have hkeep :
        ((LMSInvoice.cleared_fields.foldl (fun frm field => frm.set_value field JSVal.null)
            frm).doc "payment_reference").truthy = false := by
      rw [LMSInvoice.clear_doc]
      simpa [LMSInvoice.cleared_fields] using href2
    rw [LMSInvoice.payment_reference_unset host _ _ _ hkeep]
    apply Form.ext_doc
    · intro f
      rw [LMSInvoice.clear_doc, LMSInvoice.clear_doc]
      split_ifs <;> rfl
    · rw [(LMSInvoice.clear_frame _).1]
    · rw [(LMSInvoice.clear_frame _).2]
